import Mathlib

/-
Verification of the MDS-over-HID protocol core
(src/mds_protocol.c and include/memfault_hid/mds_protocol.h).

Shallow embedding: byte buffers are lists of naturals (each byte < 256 where
it matters), C `int` return codes are `Int`, fallible out-parameter functions
become `Except Int`.  The HID report channel (memfault_hid_read_report /
memfault_hid_write_report / memfault_hid_get_feature_report) is an external
collaborator and is modelled as an oracle argument; the channel strips the
report-ID byte and clamps the data to the caller's buffer size, which the
embedding mirrors with List.take at each call site.  Pointer-null argument
checks of the C API have no counterpart here (Lean values cannot be null).
Where a function's only side effects are channel writes or callback calls,
the embedding returns an explicit event list so that those effects can be
reasoned about.
-/

namespace MDS

/-- errno value used by the sources; the C code returns `-EINVAL` for every
invalid-argument and malformed-buffer failure. -/
def EINVAL : Int := 22

/-- memfault_hid_error_t: MEMFAULT_HID_ERROR_TIMEOUT, returned by the channel
when no input report arrives within the timeout. -/
def MEMFAULT_HID_ERROR_TIMEOUT : Int := -6

/- Report IDs (mds_protocol.h). -/
def MDS_REPORT_ID_SUPPORTED_FEATURES : Nat := 0x01
def MDS_REPORT_ID_DEVICE_IDENTIFIER : Nat := 0x02
def MDS_REPORT_ID_DATA_URI : Nat := 0x03
def MDS_REPORT_ID_AUTHORIZATION : Nat := 0x04
def MDS_REPORT_ID_STREAM_CONTROL : Nat := 0x05
def MDS_REPORT_ID_STREAM_DATA : Nat := 0x06

/- Size limits (mds_protocol.h). -/
def MDS_MAX_DEVICE_ID_LEN : Nat := 64
def MDS_MAX_URI_LEN : Nat := 128
def MDS_MAX_AUTH_LEN : Nat := 128
def MDS_MAX_CHUNK_DATA_LEN : Nat := 63

/- Stream control modes (mds_protocol.h). -/
def MDS_STREAM_MODE_DISABLED : Nat := 0x00
def MDS_STREAM_MODE_ENABLED : Nat := 0x01

/- Sequence counter (mds_protocol.h). -/
def MDS_SEQUENCE_MASK : Nat := 0x1F
def MDS_SEQUENCE_MAX : Nat := 31

/-- mds_stream_packet_t.  The C struct stores `data` in a fixed 63-byte array
together with `data_len`; here `data` is the list of the `data_len` valid
bytes, so `data_len` is `data.length`. -/
structure mds_stream_packet where
  sequence : Nat
  data : List Nat
deriving DecidableEq

/-- mds_device_config_t.  The three C char arrays hold terminated byte
strings; each field is the list of stored bytes including the terminator. -/
structure mds_device_config where
  supported_features : Nat
  device_identifier : List Nat
  data_uri : List Nat
  authorization : List Nat
deriving DecidableEq

/-- struct mds_session (mds_protocol.c).  The registered upload callback is
passed explicitly to `mds_stream_process` instead of being stored, since
functions carry no decidable equality; the device pointer is part of the
channel oracle. -/
structure mds_session where
  last_sequence : Nat
  streaming_enabled : Bool
deriving DecidableEq

/-- mds_extract_sequence (mds_protocol.h): low five bits of byte 0. -/
def mds_extract_sequence (byte0 : Nat) : Nat :=
  byte0 &&& MDS_SEQUENCE_MASK

/-- mds_validate_sequence (mds_protocol.c): the new value is valid iff it
equals the masked successor of the previous one. -/
def mds_validate_sequence (prev_seq new_seq : Nat) : Bool :=
  let expected := (prev_seq + 1) &&& MDS_SEQUENCE_MASK
  new_seq == expected

/-- mds_parse_supported_features (mds_protocol.c): requires at least four
bytes, reads a little-endian 32-bit value. -/
def mds_parse_supported_features (buffer : List Nat) : Except Int Nat :=
  if buffer.length < 4 then
    Except.error (-EINVAL)
  else
    Except.ok (buffer.getD 0 0 |||
               (buffer.getD 1 0 <<< 8) |||
               (buffer.getD 2 0 <<< 16) |||
               (buffer.getD 3 0 <<< 24))

/-- mds_parse_device_identifier (mds_protocol.c): copies
`copy_len = if buffer_len < max_len then buffer_len else max_len - 1` bytes
and appends the terminator byte. -/
def mds_parse_device_identifier (buffer : List Nat) (max_len : Nat) :
    Except Int (List Nat) :=
  if max_len = 0 then
    Except.error (-EINVAL)
  else
    let copy_len := if buffer.length < max_len then buffer.length else max_len - 1
    Except.ok (buffer.take copy_len ++ [0])

/-- mds_parse_data_uri (mds_protocol.c): same body as the identifier parser. -/
def mds_parse_data_uri (buffer : List Nat) (max_len : Nat) :
    Except Int (List Nat) :=
  if max_len = 0 then
    Except.error (-EINVAL)
  else
    let copy_len := if buffer.length < max_len then buffer.length else max_len - 1
    Except.ok (buffer.take copy_len ++ [0])

/-- mds_parse_authorization (mds_protocol.c): same body as the identifier
parser. -/
def mds_parse_authorization (buffer : List Nat) (max_len : Nat) :
    Except Int (List Nat) :=
  if max_len = 0 then
    Except.error (-EINVAL)
  else
    let copy_len := if buffer.length < max_len then buffer.length else max_len - 1
    Except.ok (buffer.take copy_len ++ [0])

/-- mds_build_stream_control (mds_protocol.c): one mode byte; on success the
C function returns the byte count 1 and the filled buffer, here the buffer. -/
def mds_build_stream_control (enable : Bool) (buffer_len : Nat) :
    Except Int (List Nat) :=
  if buffer_len < 1 then
    Except.error (-EINVAL)
  else
    Except.ok [if enable then MDS_STREAM_MODE_ENABLED else MDS_STREAM_MODE_DISABLED]

/-- mds_parse_stream_packet (mds_protocol.c): needs the sequence byte, masks
it, and clamps the payload to MDS_MAX_CHUNK_DATA_LEN bytes. -/
def mds_parse_stream_packet (buffer : List Nat) : Except Int mds_stream_packet :=
  if buffer.length < 1 then
    Except.error (-EINVAL)
  else
    let sequence := mds_extract_sequence (buffer.headD 0)
    let raw_len := buffer.length - 1
    let data_len := if raw_len > MDS_MAX_CHUNK_DATA_LEN then MDS_MAX_CHUNK_DATA_LEN else raw_len
    Except.ok { sequence := sequence, data := (buffer.drop 1).take data_len }

/-- mds_session_create (mds_protocol.c): last_sequence starts at
MDS_SEQUENCE_MAX, streaming disabled. -/
def mds_session_create : mds_session :=
  { last_sequence := MDS_SEQUENCE_MAX, streaming_enabled := false }

/-- mds_get_last_sequence (mds_protocol.c). -/
def mds_get_last_sequence (s : mds_session) : Nat :=
  s.last_sequence

/-- mds_update_last_sequence (mds_protocol.c): stores the masked value. -/
def mds_update_last_sequence (s : mds_session) (sequence : Nat) : mds_session :=
  { s with last_sequence := sequence &&& MDS_SEQUENCE_MASK }

example : mds_validate_sequence 31 0 = true := by decide
example : mds_validate_sequence 5 5 = false := by decide
example : mds_validate_sequence 5 7 = false := by decide
/-- Decidable equality for Except results, so that concrete runs of the
embedded functions can be settled by decide. -/
instance instDecEqExcept {ε α : Type} [DecidableEq ε] [DecidableEq α] :
    DecidableEq (Except ε α) := fun a b =>
  match a, b with
  | Except.error e1, Except.error e2 =>
    if h : e1 = e2 then Decidable.isTrue (by rw [h])
    else Decidable.isFalse (fun hc => h (Except.error.injEq e1 e2 ▸ hc))
  | Except.error e1, Except.ok a2 => Decidable.isFalse (fun hc => Except.noConfusion hc)
  | Except.ok a1, Except.error e2 => Decidable.isFalse (fun hc => Except.noConfusion hc)
  | Except.ok a1, Except.ok a2 =>
    if h : a1 = a2 then Decidable.isTrue (by rw [h])
    else Decidable.isFalse (fun hc => h (Except.ok.injEq a1 a2 ▸ hc))

example : mds_parse_supported_features [0x0F, 0, 0, 0] = Except.ok 15 := by decide
example : mds_parse_supported_features [0xFF, 0xFF, 0xFF, 0xFF] = Except.ok 4294967295 := by
  decide
example : mds_parse_device_identifier [65, 66, 67] 3 = Except.ok [65, 66, 0] := by decide
example : mds_parse_stream_packet [] = Except.error (-EINVAL) := by decide

/-- One write attempted on the report channel: the report id and the payload
bytes handed to memfault_hid_write_report. -/
structure WriteEvent where
  report_id : Nat
  payload : List Nat
deriving DecidableEq

/-- mds_stream_enable (mds_protocol.c).  The channel is the oracle
`write_report report_id payload timeout_ms = return code` standing for
memfault_hid_write_report on the session's device.  Returns the C return
code, the session after the call, and the writes attempted on the channel. -/
def mds_stream_enable (write_report : Nat → List Nat → Nat → Int)
    (s : mds_session) : Int × mds_session × List WriteEvent :=
  match mds_build_stream_control true 1 with
  | Except.error e => (e, s, [])
  | Except.ok buffer =>
    let ret := write_report MDS_REPORT_ID_STREAM_CONTROL buffer 1000
    if ret < 0 then
      (ret, s, [⟨MDS_REPORT_ID_STREAM_CONTROL, buffer⟩])
    else
      (0, { s with streaming_enabled := true }, [⟨MDS_REPORT_ID_STREAM_CONTROL, buffer⟩])

/-- mds_stream_disable (mds_protocol.c): symmetric to mds_stream_enable with
the disable mode byte. -/
def mds_stream_disable (write_report : Nat → List Nat → Nat → Int)
    (s : mds_session) : Int × mds_session × List WriteEvent :=
  match mds_build_stream_control false 1 with
  | Except.error e => (e, s, [])
  | Except.ok buffer =>
    let ret := write_report MDS_REPORT_ID_STREAM_CONTROL buffer 1000
    if ret < 0 then
      (ret, s, [⟨MDS_REPORT_ID_STREAM_CONTROL, buffer⟩])
    else
      (0, { s with streaming_enabled := false }, [⟨MDS_REPORT_ID_STREAM_CONTROL, buffer⟩])

/-- mds_stream_read_packet (mds_protocol.c).  `chan_read` is the outcome of
memfault_hid_read_report for this call: a negative channel code (for example
MEMFAULT_HID_ERROR_TIMEOUT), or the received report id together with the
report bytes after the id byte was stripped; the C caller passes a
64-byte buffer (MDS_MAX_CHUNK_DATA_LEN + 1) which the channel fills at most
to capacity, mirrored by List.take.  On success the session's last_sequence
becomes the parsed packet's sequence. -/
def mds_stream_read_packet (chan_read : Except Int (Nat × List Nat))
    (s : mds_session) : Except Int (mds_session × mds_stream_packet) :=
  match chan_read with
  | Except.error e => Except.error e
  | Except.ok (report_id, raw) =>
    let data := raw.take (MDS_MAX_CHUNK_DATA_LEN + 1)
    if report_id ≠ MDS_REPORT_ID_STREAM_DATA then
      Except.error (-EINVAL)
    else
      match mds_parse_stream_packet data with
      | Except.error e => Except.error e
      | Except.ok packet =>
        Except.ok ({ s with last_sequence := packet.sequence }, packet)

/-- One invocation of the registered upload callback: the arguments handed to
it by mds_stream_process. -/
structure SinkCall where
  uri : List Nat
  auth : List Nat
  chunk : List Nat
deriving DecidableEq

/-- Outcome of one mds_stream_process call: the C return code, the session
afterwards, the sequence classification the function computed (none when the
mds_validate_sequence call was skipped, some b when it ran and returned b --
the C code only logs on b = false), and the upload-callback invocations. -/
structure ProcessResult where
  ret : Int
  session : mds_session
  seq_check : Option Bool
  sink_calls : List SinkCall
deriving DecidableEq

/-- mds_stream_process (mds_protocol.c).  Reads one packet via
mds_stream_read_packet (which already stores the packet's sequence in the
session), then runs the sequence check on the session's last_sequence unless
it equals MDS_SEQUENCE_MAX, then invokes the registered upload callback if
there is one, propagating a negative callback result. -/
def mds_stream_process (chan_read : Except Int (Nat × List Nat))
    (upload_callback : Option (List Nat → List Nat → List Nat → Int))
    (config : mds_device_config) (s : mds_session) : ProcessResult :=
  match mds_stream_read_packet chan_read s with
  | Except.error e => ⟨e, s, none, []⟩
  | Except.ok (s1, packet) =>
    let seq_check :=
      if s1.last_sequence ≠ MDS_SEQUENCE_MAX then
        some (mds_validate_sequence s1.last_sequence packet.sequence)
      else
        none
    match upload_callback with
    | none => ⟨0, s1, seq_check, []⟩
    | some cb =>
      let r := cb config.data_uri config.authorization packet.data
      let call : SinkCall := ⟨config.data_uri, config.authorization, packet.data⟩
      if r < 0 then ⟨r, s1, seq_check, [call]⟩
      else ⟨0, s1, seq_check, [call]⟩

/-- mds_get_supported_features (mds_protocol.c).  `get_feature` is the oracle
for memfault_hid_get_feature_report on the session's device: per report id,
a negative channel code or the report bytes; the C caller supplies a 4-byte
buffer, mirrored by List.take. -/
def mds_get_supported_features (get_feature : Nat → Except Int (List Nat)) :
    Except Int Nat :=
  match get_feature MDS_REPORT_ID_SUPPORTED_FEATURES with
  | Except.error e => Except.error e
  | Except.ok raw => mds_parse_supported_features (raw.take 4)

/-- mds_get_device_identifier (mds_protocol.c): 64-byte read buffer, then the
identifier parser with the caller's max_len. -/
def mds_get_device_identifier (get_feature : Nat → Except Int (List Nat))
    (max_len : Nat) : Except Int (List Nat) :=
  if max_len = 0 then
    Except.error (-EINVAL)
  else
    match get_feature MDS_REPORT_ID_DEVICE_IDENTIFIER with
    | Except.error e => Except.error e
    | Except.ok raw => mds_parse_device_identifier (raw.take MDS_MAX_DEVICE_ID_LEN) max_len

/-- mds_get_data_uri (mds_protocol.c): 128-byte read buffer, then the URI
parser. -/
def mds_get_data_uri (get_feature : Nat → Except Int (List Nat))
    (max_len : Nat) : Except Int (List Nat) :=
  if max_len = 0 then
    Except.error (-EINVAL)
  else
    match get_feature MDS_REPORT_ID_DATA_URI with
    | Except.error e => Except.error e
    | Except.ok raw => mds_parse_data_uri (raw.take MDS_MAX_URI_LEN) max_len

/-- mds_get_authorization (mds_protocol.c): 128-byte read buffer, then the
authorization parser. -/
def mds_get_authorization (get_feature : Nat → Except Int (List Nat))
    (max_len : Nat) : Except Int (List Nat) :=
  if max_len = 0 then
    Except.error (-EINVAL)
  else
    match get_feature MDS_REPORT_ID_AUTHORIZATION with
    | Except.error e => Except.error e
    | Except.ok raw => mds_parse_authorization (raw.take MDS_MAX_AUTH_LEN) max_len

/-- mds_read_device_config (mds_protocol.c): four sequential feature reads in
the fixed order features, identifier, URI, authorization, each aborting the
whole operation on failure.  The second component records the report ids
requested on the channel, in order, for this call (each getter above issues
exactly one channel request, since every max_len passed here is nonzero). -/
def mds_read_device_config (get_feature : Nat → Except Int (List Nat)) :
    Except Int mds_device_config × List Nat :=
  match mds_get_supported_features get_feature with
  | Except.error e => (Except.error e, [MDS_REPORT_ID_SUPPORTED_FEATURES])
  | Except.ok feats =>
    match mds_get_device_identifier get_feature MDS_MAX_DEVICE_ID_LEN with
    | Except.error e =>
      (Except.error e, [MDS_REPORT_ID_SUPPORTED_FEATURES, MDS_REPORT_ID_DEVICE_IDENTIFIER])
    | Except.ok dev_id =>
      match mds_get_data_uri get_feature MDS_MAX_URI_LEN with
      | Except.error e =>
        (Except.error e, [MDS_REPORT_ID_SUPPORTED_FEATURES, MDS_REPORT_ID_DEVICE_IDENTIFIER,
                          MDS_REPORT_ID_DATA_URI])
      | Except.ok uri =>
        match mds_get_authorization get_feature MDS_MAX_AUTH_LEN with
        | Except.error e =>
          (Except.error e, [MDS_REPORT_ID_SUPPORTED_FEATURES, MDS_REPORT_ID_DEVICE_IDENTIFIER,
                            MDS_REPORT_ID_DATA_URI, MDS_REPORT_ID_AUTHORIZATION])
        | Except.ok auth =>
          (Except.ok { supported_features := feats, device_identifier := dev_id,
                       data_uri := uri, authorization := auth },
           [MDS_REPORT_ID_SUPPORTED_FEATURES, MDS_REPORT_ID_DEVICE_IDENTIFIER,
            MDS_REPORT_ID_DATA_URI, MDS_REPORT_ID_AUTHORIZATION])

/-- A sample device configuration used for concrete runs of the processing
loop in the theorems below. -/
def sample_config : mds_device_config :=
  { supported_features := 0
    device_identifier := [68, 69, 86, 0]
    data_uri := [104, 116, 116, 112, 0]
    authorization := [107, 101, 121, 0] }

/-- Helper: a successfully parsed stream packet carries the masked first
byte as its sequence, so the sequence never exceeds 31. -/
theorem parse_stream_packet_ok_sequence {buffer : List Nat} {p : mds_stream_packet}
    (h : mds_parse_stream_packet buffer = Except.ok p) :
    p.sequence = buffer.headD 0 &&& 0x1F ∧ p.sequence ≤ 31 := by
  unfold mds_parse_stream_packet at h
  split at h
  · exact absurd h (by simp)
  · simp only [Except.ok.injEq] at h
    subst h
    exact ⟨rfl, Nat.and_le_right⟩

/-- C2: for every prev and new value in [0, 31], mds_validate_sequence
returns true exactly when the new value is the successor of the previous one
modulo 32. -/
theorem c2_validate_sequence_iff (prev_seq new_seq : Nat)
    (_hp : prev_seq < 32) (_hn : new_seq < 32) :
    mds_validate_sequence prev_seq new_seq = true ↔ new_seq = (prev_seq + 1) % 32 := by
  have hmask : (prev_seq + 1) &&& MDS_SEQUENCE_MASK = (prev_seq + 1) % 32 := by
    have h31 : MDS_SEQUENCE_MASK = 2 ^ 5 - 1 := by decide
    rw [h31, Nat.and_pow_two_sub_one_eq_mod]
  simp [mds_validate_sequence, hmask]

/-- Witness for C2 at the concrete pairs named by the claim: wraparound
(31, 0) is valid, the duplicate (5, 5) and the gap (5, 7) are not. -/
theorem c2_validate_sequence_iff_witness :
    mds_validate_sequence 31 0 = true ∧ mds_validate_sequence 5 5 = false ∧
    mds_validate_sequence 5 7 = false :=
  ⟨(c2_validate_sequence_iff 31 0 (by decide) (by decide)).mpr (by decide),
   by decide, by decide⟩

/-- C1: refuted on the code.  For a fresh session (last_sequence = 31) whose
first received stream-data packet has sequence 0, mds_stream_process
classifies that packet as a sequence anomaly (seq_check = some false), not as
expected: mds_stream_read_packet already stored sequence 0 in the session, so
the check computes mds_validate_sequence 0 0 = false.  The final conjunct
shows the sentinel arithmetic the claim describes would have validated the
packet had the previous value 31 still been in place. -/
theorem c1_first_packet_classified_anomalous :
    (mds_stream_process (Except.ok (MDS_REPORT_ID_STREAM_DATA, [0, 0xAA]))
        none sample_config mds_session_create).seq_check = some false ∧
    (mds_stream_process (Except.ok (MDS_REPORT_ID_STREAM_DATA, [0, 0xAA]))
        none sample_config mds_session_create).ret = 0 ∧
    mds_validate_sequence MDS_SEQUENCE_MAX 0 = true := by
  decide

/-- C3: refuted on the code.  With last_sequence = 5 and an incoming packet
with sequence 6 -- the legitimate successor -- mds_stream_process flags a
sequence anomaly (seq_check = some false), because the check compares the
packet against its own just-stored sequence rather than the previously
tracked one; the sink is still invoked with the chunk and the call returns 0.
Moreover, when the incoming packet's sequence is 31, no sequence check occurs
at all (seq_check = none) even though a packet was successfully read. -/
theorem c3_sequence_check_not_against_previous :
    ((mds_stream_process (Except.ok (MDS_REPORT_ID_STREAM_DATA, [6, 0xAB]))
        (some fun _ _ _ => 0) sample_config
        { last_sequence := 5, streaming_enabled := true }).ret = 0 ∧
     (mds_stream_process (Except.ok (MDS_REPORT_ID_STREAM_DATA, [6, 0xAB]))
        (some fun _ _ _ => 0) sample_config
        { last_sequence := 5, streaming_enabled := true }).seq_check = some false ∧
     (mds_stream_process (Except.ok (MDS_REPORT_ID_STREAM_DATA, [6, 0xAB]))
        (some fun _ _ _ => 0) sample_config
        { last_sequence := 5, streaming_enabled := true }).sink_calls =
       [⟨sample_config.data_uri, sample_config.authorization, [0xAB]⟩]) ∧
    (mds_stream_process (Except.ok (MDS_REPORT_ID_STREAM_DATA, [0x1F]))
        (some fun _ _ _ => 0) sample_config
        { last_sequence := 5, streaming_enabled := true }).seq_check = none := by
  decide

/-- C4: mds_parse_stream_packet fails with the malformed-report error exactly
when the buffer is empty; on any buffer with at least the sequence byte it
succeeds, the sequence is the masked first byte (hence at most 31), and the
payload is the remaining bytes clamped to 63, excess silently dropped. -/
theorem c4_parse_stream_packet_spec (buffer : List Nat) :
    (buffer.length < 1 → mds_parse_stream_packet buffer = Except.error (-EINVAL)) ∧
    (1 ≤ buffer.length →
      ∃ p, mds_parse_stream_packet buffer = Except.ok p ∧
        p.sequence = buffer.headD 0 &&& 0x1F ∧
        p.sequence ≤ 31 ∧
        p.data = (buffer.drop 1).take (min (buffer.length - 1) 63) ∧
        p.data.length = min (buffer.length - 1) 63) := by
  constructor
  · intro h
    unfold mds_parse_stream_packet
    rw [if_pos h]
  · intro h
    have hne : ¬ buffer.length < 1 := by omega
    have hmin : (if buffer.length - 1 > MDS_MAX_CHUNK_DATA_LEN then MDS_MAX_CHUNK_DATA_LEN
        else buffer.length - 1) = min (buffer.length - 1) 63 := by
      unfold MDS_MAX_CHUNK_DATA_LEN
      split <;> omega
    refine ⟨⟨buffer.headD 0 &&& 0x1F, (buffer.drop 1).take (min (buffer.length - 1) 63)⟩,
      ?_, rfl, Nat.and_le_right, rfl, ?_⟩
    · unfold mds_parse_stream_packet
      rw [if_neg hne]
      simp only [mds_extract_sequence, MDS_SEQUENCE_MASK, hmin]
    · rw [List.length_take, List.length_drop]
      omega

/-- Witness for C4: the empty buffer fails, while 64-byte and 70-byte inputs
both succeed with a 63-byte payload. -/
theorem c4_parse_stream_packet_spec_witness :
    mds_parse_stream_packet [] = Except.error (-EINVAL) ∧
    (∃ p, mds_parse_stream_packet (List.replicate 64 7) = Except.ok p ∧
      p.data.length = 63) ∧
    (∃ p, mds_parse_stream_packet (List.replicate 70 7) = Except.ok p ∧
      p.data.length = 63) := by
  refine ⟨(c4_parse_stream_packet_spec []).1 (by simp), ?_, ?_⟩
  · obtain ⟨p, hp, _, _, _, hlen⟩ :=
      (c4_parse_stream_packet_spec (List.replicate 64 7)).2 (by simp)
    exact ⟨p, hp, by simpa using hlen⟩
  · obtain ⟨p, hp, _, _, _, hlen⟩ :=
      (c4_parse_stream_packet_spec (List.replicate 70 7)).2 (by simp)
    exact ⟨p, hp, by simpa using hlen⟩

/-- C10: the session's last_sequence always stays in [0, 31]: it is 31 right
after mds_session_create, a successful mds_stream_read_packet stores a masked
sequence, and mds_update_last_sequence masks its argument before storing. -/
theorem c10_last_sequence_bounded (chan_read : Except Int (Nat × List Nat))
    (s s2 : mds_session) (p : mds_stream_packet) (seq : Nat)
    (h : mds_stream_read_packet chan_read s = Except.ok (s2, p)) :
    mds_session_create.last_sequence = 31 ∧
    s2.last_sequence ≤ 31 ∧
    (mds_update_last_sequence s seq).last_sequence ≤ 31 := by
  refine ⟨rfl, ?_, Nat.and_le_right⟩
  unfold mds_stream_read_packet at h
  match chan_read with
  | Except.error e => exact absurd h (by simp)
  | Except.ok (rid, raw) =>
    simp only at h
    split at h
    · exact absurd h (by simp)
    · split at h
      · exact absurd h (by simp)
      · rename_i packet hparse
        simp only [Except.ok.injEq, Prod.mk.injEq] at h
        obtain ⟨hs2, hp⟩ := h
        have hseq := (parse_stream_packet_ok_sequence hparse).2
        rw [← hs2]
        exact hseq

/-- Witness for C10 at a concrete run: reading report id 6 with first byte
0xFF stores the masked sequence 31, and updating with 200 stores 200 masked. -/
theorem c10_last_sequence_bounded_witness :
    mds_session_create.last_sequence = 31 ∧
    ({ last_sequence := 31, streaming_enabled := false } : mds_session).last_sequence ≤ 31 ∧
    (mds_update_last_sequence mds_session_create 200).last_sequence ≤ 31 :=
  c10_last_sequence_bounded (Except.ok (6, [0xFF, 1])) mds_session_create
    ⟨31, false⟩ ⟨31, [1]⟩ 200 (by decide)

/-- Helper: or-ing a value below 2 ^ k onto a value shifted left by k adds
the two, since their bit ranges are disjoint. -/
theorem lor_shiftLeft_eq_add (a m k : Nat) (h : a < 2 ^ k) :
    a ||| (m <<< k) = a + m * 2 ^ k := by
  rw [Nat.shiftLeft_eq]
  apply Nat.eq_of_testBit_eq
  intro i
  rw [Nat.testBit_lor]
  have hadd : a + m * 2 ^ k = 2 ^ k * m + a := by ring
  rw [hadd, Nat.testBit_mul_pow_two_add m h i]
  rw [Nat.mul_comm m (2 ^ k), Nat.testBit_mul_pow_two]
  by_cases hi : i < k
  · simp [hi, Nat.not_le.mpr hi]
  · have hf : a.testBit i = false :=
      Nat.testBit_lt_two_pow
        (lt_of_lt_of_le h (Nat.pow_le_pow_right (by norm_num) (Nat.not_lt.mp hi)))
    simp [hi, hf, Nat.not_lt.mp hi]

/-- Helper: the little-endian feature word on a buffer in cons form, with the
byte bounds of the C uint8_t array. -/
theorem parse_supported_features_cons (b0 b1 b2 b3 : Nat) (rest : List Nat)
    (h0 : b0 < 256) (h1 : b1 < 256) (h2 : b2 < 256) (_h3 : b3 < 256) :
    mds_parse_supported_features (b0 :: b1 :: b2 :: b3 :: rest) =
      Except.ok (b0 + b1 * 2 ^ 8 + b2 * 2 ^ 16 + b3 * 2 ^ 24) := by
  unfold mds_parse_supported_features
  rw [if_neg (by simp)]
  have e1 : b0 ||| (b1 <<< 8) = b0 + b1 * 2 ^ 8 :=
    lor_shiftLeft_eq_add b0 b1 8 (by omega)
  have e2 : (b0 + b1 * 2 ^ 8) ||| (b2 <<< 16) = b0 + b1 * 2 ^ 8 + b2 * 2 ^ 16 :=
    lor_shiftLeft_eq_add _ b2 16 (by omega)
  have e3 : (b0 + b1 * 2 ^ 8 + b2 * 2 ^ 16) ||| (b3 <<< 24) =
      b0 + b1 * 2 ^ 8 + b2 * 2 ^ 16 + b3 * 2 ^ 24 :=
    lor_shiftLeft_eq_add _ b3 24 (by omega)
  simp only [List.getD_cons_zero, List.getD_cons_succ]
  rw [e1, e2, e3]

/-- C5: mds_parse_supported_features fails with the malformed-report error on
every buffer shorter than four bytes, and on every buffer of at least four
bytes (each byte below 256, as produced by the C uint8_t array) succeeds with
bytes 0 to 3 read as a little-endian unsigned 32-bit value, which is below
2 ^ 32; no other validation is performed. -/
theorem c5_parse_supported_features_spec (buffer : List Nat)
    (hbytes : ∀ b ∈ buffer, b < 256) :
    (buffer.length < 4 → mds_parse_supported_features buffer = Except.error (-EINVAL)) ∧
    (4 ≤ buffer.length →
      mds_parse_supported_features buffer =
        Except.ok (buffer.getD 0 0 + buffer.getD 1 0 * 2 ^ 8 +
                   buffer.getD 2 0 * 2 ^ 16 + buffer.getD 3 0 * 2 ^ 24) ∧
      buffer.getD 0 0 + buffer.getD 1 0 * 2 ^ 8 +
        buffer.getD 2 0 * 2 ^ 16 + buffer.getD 3 0 * 2 ^ 24 < 2 ^ 32) := by
  constructor
  · intro h
    unfold mds_parse_supported_features
    rw [if_pos h]
  · intro h
    rcases buffer with _ | ⟨b0, buffer⟩
    · simp at h
    rcases buffer with _ | ⟨b1, buffer⟩
    · simp at h
    rcases buffer with _ | ⟨b2, buffer⟩
    · simp at h
    rcases buffer with _ | ⟨b3, rest⟩
    · simp at h
    have h0 : b0 < 256 := hbytes b0 (by simp)
    have h1 : b1 < 256 := hbytes b1 (by simp)
    have h2 : b2 < 256 := hbytes b2 (by simp)
    have h3 : b3 < 256 := hbytes b3 (by simp)
    have hcons := parse_supported_features_cons b0 b1 b2 b3 rest h0 h1 h2 h3
    simp only [List.getD_cons_zero, List.getD_cons_succ]
    exact ⟨hcons, by omega⟩

/-- Witness for C5 at the claim's vectors: [0x0F, 0, 0, 0] decodes to 15,
[0xFF, 0xFF, 0xFF, 0xFF] decodes to 4294967295, and a 3-byte buffer fails. -/
theorem c5_parse_supported_features_spec_witness :
    mds_parse_supported_features [0x0F, 0, 0, 0] = Except.ok 15 ∧
    mds_parse_supported_features [0xFF, 0xFF, 0xFF, 0xFF] = Except.ok 4294967295 ∧
    mds_parse_supported_features [1, 2, 3] = Except.error (-EINVAL) := by
  refine ⟨?_, ?_, ?_⟩
  · have h := ((c5_parse_supported_features_spec [0x0F, 0, 0, 0] (by decide)).2 (by decide)).1
    simpa using h
  · have h := ((c5_parse_supported_features_spec [0xFF, 0xFF, 0xFF, 0xFF] (by decide)).2
      (by decide)).1
    simpa using h
  · exact (c5_parse_supported_features_spec [1, 2, 3] (by decide)).1 (by decide)

/-- C6: the three string parsers fail with the invalid-argument error exactly
when the destination capacity is zero; with a nonzero capacity each copies
min(buffer length, capacity - 1) bytes verbatim, appends the terminator and
succeeds; an input longer than the capacity is silently truncated to a
terminated string whose copied part is exactly capacity - 1 bytes.  The URI
and authorization parsers agree with the identifier parser on all inputs. -/
theorem c6_string_parsers_spec (buffer : List Nat) (max_len : Nat) :
    ((mds_parse_device_identifier buffer max_len = Except.error (-EINVAL)) ↔ max_len = 0) ∧
    (0 < max_len →
      mds_parse_device_identifier buffer max_len =
        Except.ok (buffer.take (min buffer.length (max_len - 1)) ++ [0])) ∧
    (0 < max_len → max_len < buffer.length →
      mds_parse_device_identifier buffer max_len =
        Except.ok (buffer.take (max_len - 1) ++ [0]) ∧
      (buffer.take (max_len - 1)).length = max_len - 1) ∧
    mds_parse_data_uri buffer max_len = mds_parse_device_identifier buffer max_len ∧
    mds_parse_authorization buffer max_len = mds_parse_device_identifier buffer max_len := by
  refine ⟨?_, ?_, ?_, rfl, rfl⟩
  · unfold mds_parse_device_identifier
    split
    · rename_i hz
      simp [hz]
    · rename_i hz
      simp [hz]
  · intro hml
    have hcopy : (if buffer.length < max_len then buffer.length else max_len - 1) =
        min buffer.length (max_len - 1) := by
      split <;> omega
    unfold mds_parse_device_identifier
    rw [if_neg (by omega)]
    simp only [hcopy]
  · intro hml hlen
    have hcopy : (if buffer.length < max_len then buffer.length else max_len - 1) =
        max_len - 1 := by
      split <;> omega
    constructor
    · unfold mds_parse_device_identifier
      rw [if_neg (by omega)]
      simp only [hcopy]
    · rw [List.length_take]
      omega

/-- Witness for C6: with capacity 0 the parser fails; with capacity 3 and a
4-byte input it truncates to the 2 copied bytes plus the terminator. -/
theorem c6_string_parsers_spec_witness :
    mds_parse_device_identifier [65, 66, 67, 68] 0 = Except.error (-EINVAL) ∧
    mds_parse_device_identifier [65, 66, 67, 68] 3 = Except.ok [65, 66, 0] ∧
    mds_parse_data_uri [65, 66, 67, 68] 3 = Except.ok [65, 66, 0] ∧
    mds_parse_authorization [65, 66, 67, 68] 3 = Except.ok [65, 66, 0] := by
  have h0 := (c6_string_parsers_spec [65, 66, 67, 68] 0).1.mpr rfl
  have hok := (c6_string_parsers_spec [65, 66, 67, 68] 3).2.1 (by decide)
  have hu := (c6_string_parsers_spec [65, 66, 67, 68] 3).2.2.2.1
  have ha := (c6_string_parsers_spec [65, 66, 67, 68] 3).2.2.2.2
  refine ⟨h0, by simpa using hok, ?_, ?_⟩
  · rw [hu]
    simpa using hok
  · rw [ha]
    simpa using hok

/-- C8: mds_stream_enable writes the single byte 0x01 through the report
channel and marks the session enabled only when the write succeeds; on a
failed write the session is unchanged and the channel's code is returned;
mds_stream_disable is symmetric with byte 0x00; and a successful enable
followed by a successful disable leaves the session disabled having issued
exactly the two writes [0x01] then [0x00]. -/
theorem c8_enable_disable_spec (w w2 wf : Nat → List Nat → Nat → Int)
    (s : mds_session)
    (henable : 0 ≤ w MDS_REPORT_ID_STREAM_CONTROL [MDS_STREAM_MODE_ENABLED] 1000)
    (hdisable : 0 ≤ w2 MDS_REPORT_ID_STREAM_CONTROL [MDS_STREAM_MODE_DISABLED] 1000)
    (hfail : wf MDS_REPORT_ID_STREAM_CONTROL [MDS_STREAM_MODE_ENABLED] 1000 < 0)
    (hfail2 : wf MDS_REPORT_ID_STREAM_CONTROL [MDS_STREAM_MODE_DISABLED] 1000 < 0) :
    mds_stream_enable wf s =
      (wf MDS_REPORT_ID_STREAM_CONTROL [MDS_STREAM_MODE_ENABLED] 1000, s,
       [⟨MDS_REPORT_ID_STREAM_CONTROL, [MDS_STREAM_MODE_ENABLED]⟩]) ∧
    mds_stream_disable wf s =
      (wf MDS_REPORT_ID_STREAM_CONTROL [MDS_STREAM_MODE_DISABLED] 1000, s,
       [⟨MDS_REPORT_ID_STREAM_CONTROL, [MDS_STREAM_MODE_DISABLED]⟩]) ∧
    mds_stream_enable w s =
      (0, { s with streaming_enabled := true },
       [⟨MDS_REPORT_ID_STREAM_CONTROL, [MDS_STREAM_MODE_ENABLED]⟩]) ∧
    mds_stream_disable w2 (mds_stream_enable w s).2.1 =
      (0, { s with streaming_enabled := false },
       [⟨MDS_REPORT_ID_STREAM_CONTROL, [MDS_STREAM_MODE_DISABLED]⟩]) ∧
    (mds_stream_disable w2 (mds_stream_enable w s).2.1).2.1.streaming_enabled = false ∧
    (mds_stream_enable w s).2.2 ++ (mds_stream_disable w2 (mds_stream_enable w s).2.1).2.2 =
      [⟨MDS_REPORT_ID_STREAM_CONTROL, [MDS_STREAM_MODE_ENABLED]⟩,
       ⟨MDS_REPORT_ID_STREAM_CONTROL, [MDS_STREAM_MODE_DISABLED]⟩] := by
  have hbe : mds_build_stream_control true 1 = Except.ok [MDS_STREAM_MODE_ENABLED] := by
    decide
  have hbd : mds_build_stream_control false 1 = Except.ok [MDS_STREAM_MODE_DISABLED] := by
    decide
  have hwf : ¬ (0 : Int) ≤ wf MDS_REPORT_ID_STREAM_CONTROL [MDS_STREAM_MODE_ENABLED] 1000 := by
    omega
  have hwf2 : ¬ (0 : Int) ≤ wf MDS_REPORT_ID_STREAM_CONTROL [MDS_STREAM_MODE_DISABLED] 1000 := by
    omega
  have hw : ¬ w MDS_REPORT_ID_STREAM_CONTROL [MDS_STREAM_MODE_ENABLED] 1000 < 0 := by
    omega
  have hw2 : ¬ w2 MDS_REPORT_ID_STREAM_CONTROL [MDS_STREAM_MODE_DISABLED] 1000 < 0 := by
    omega
  have he : mds_stream_enable w s =
      (0, { s with streaming_enabled := true },
       [⟨MDS_REPORT_ID_STREAM_CONTROL, [MDS_STREAM_MODE_ENABLED]⟩]) := by
    unfold mds_stream_enable
    rw [hbe]
    simp only [if_neg hw]
  refine ⟨?_, ?_, he, ?_, ?_, ?_⟩
  · unfold mds_stream_enable
    rw [hbe]
    simp only [if_pos hfail]
  · unfold mds_stream_disable
    rw [hbd]
    simp only [if_pos hfail2]
  · rw [he]
    unfold mds_stream_disable
    rw [hbd]
    simp only [if_neg hw2]
  · rw [he]
    unfold mds_stream_disable
    rw [hbd]
    simp only [if_neg hw2]
  · rw [he]
    unfold mds_stream_disable
    rw [hbd]
    simp only [if_neg hw2]
    rfl

/-- Witness for C8 at concrete channels: a channel that reports failure code
-5 leaves a fresh session unchanged, and a channel that accepts the write
enables a fresh session with the single payload [0x01]. -/
theorem c8_enable_disable_spec_witness :
    mds_stream_enable (fun _ _ _ => (-5 : Int)) mds_session_create =
      (-5, mds_session_create,
       [⟨MDS_REPORT_ID_STREAM_CONTROL, [MDS_STREAM_MODE_ENABLED]⟩]) ∧
    mds_stream_enable (fun _ _ _ => (1 : Int)) mds_session_create =
      (0, { mds_session_create with streaming_enabled := true },
       [⟨MDS_REPORT_ID_STREAM_CONTROL, [MDS_STREAM_MODE_ENABLED]⟩]) := by
  have h := c8_enable_disable_spec (fun _ _ _ => (1 : Int)) (fun _ _ _ => (0 : Int))
    (fun _ _ _ => (-5 : Int)) mds_session_create (by decide) (by decide)
    (by decide) (by decide)
  exact ⟨h.1, h.2.2.1⟩

/-- C9 counterexample: the claim's "ProtocolMismatch, an error kind distinct
from InvalidArgument" does not exist in the code.  A read that returns report
id 0x05 instead of the stream-data id 0x06 fails with -EINVAL, the very same
code an invalid-argument failure (zero destination capacity) produces. -/
theorem c9_wrong_report_id_not_distinct_from_einval :
    mds_stream_read_packet (Except.ok (MDS_REPORT_ID_STREAM_CONTROL, [0x01]))
      mds_session_create = Except.error (-EINVAL) ∧
    mds_parse_device_identifier [0x41] 0 = Except.error (-EINVAL) := by
  decide

/-- C9 as amended: mds_stream_read_packet propagates the channel's error
(for example its timeout code) unchanged when the read fails, fails with
-EINVAL -- the code this library also uses for invalid arguments, not a
distinct kind -- when the received report id is not the stream-data id, and
on every successfully decoded packet stores that packet's sequence as the
session's last_sequence regardless of whether it was the valid successor. -/
theorem c9_read_packet_spec (e : Int) (rid : Nat) (raw : List Nat) (s : mds_session) :
    mds_stream_read_packet (Except.error e) s = Except.error e ∧
    (rid ≠ MDS_REPORT_ID_STREAM_DATA →
      mds_stream_read_packet (Except.ok (rid, raw)) s = Except.error (-EINVAL)) ∧
    (∀ s2 p, mds_stream_read_packet (Except.ok (rid, raw)) s = Except.ok (s2, p) →
      s2.last_sequence = p.sequence ∧ s2.streaming_enabled = s.streaming_enabled) := by
  refine ⟨rfl, ?_, ?_⟩
  · intro hrid
    unfold mds_stream_read_packet
    simp only [if_pos hrid]
  · intro s2 p h
    unfold mds_stream_read_packet at h
    simp only at h
    split at h
    · exact absurd h (by simp)
    · split at h
      · exact absurd h (by simp)
      · simp only [Except.ok.injEq, Prod.mk.injEq] at h
        obtain ⟨hs2, hp⟩ := h
        subst hp
        rw [← hs2]
        exact ⟨rfl, rfl⟩

/-- Witness for C9 at concrete runs: the transport timeout code -6 is
returned unchanged; report id 0x01 fails; and a successful read of sequence 9
after last_sequence 5 (not the valid successor) still stores 9. -/
theorem c9_read_packet_spec_witness :
    mds_stream_read_packet (Except.error MEMFAULT_HID_ERROR_TIMEOUT) mds_session_create =
      Except.error MEMFAULT_HID_ERROR_TIMEOUT ∧
    mds_stream_read_packet (Except.ok (MDS_REPORT_ID_SUPPORTED_FEATURES, [9]))
      mds_session_create = Except.error (-EINVAL) ∧
    ({ last_sequence := 9, streaming_enabled := true } : mds_session).last_sequence =
      ({ sequence := 9, data := [] } : mds_stream_packet).sequence := by
  have h := c9_read_packet_spec MEMFAULT_HID_ERROR_TIMEOUT MDS_REPORT_ID_SUPPORTED_FEATURES
    [9] mds_session_create
  have h2 := c9_read_packet_spec 0 MDS_REPORT_ID_STREAM_DATA [9]
    { last_sequence := 5, streaming_enabled := true }
  exact ⟨h.1, h.2.1 (by decide),
    (h2.2.2 { last_sequence := 9, streaming_enabled := true }
      { sequence := 9, data := [] } (by decide)).1⟩

/-- C7: mds_read_device_config performs the four feature reads in the fixed
order features, identifier, URI, authorization; a successful result carries
exactly the four decoded values; the first failing read or decode aborts the
operation, returns that failure's error unchanged, and the later reads are
never issued (the request trace stops at the failing id). -/
theorem c7_read_device_config_spec (get_feature : Nat → Except Int (List Nat)) :
    (∀ cfg, (mds_read_device_config get_feature).1 = Except.ok cfg →
      mds_get_supported_features get_feature = Except.ok cfg.supported_features ∧
      mds_get_device_identifier get_feature MDS_MAX_DEVICE_ID_LEN =
        Except.ok cfg.device_identifier ∧
      mds_get_data_uri get_feature MDS_MAX_URI_LEN = Except.ok cfg.data_uri ∧
      mds_get_authorization get_feature MDS_MAX_AUTH_LEN = Except.ok cfg.authorization ∧
      (mds_read_device_config get_feature).2 =
        [MDS_REPORT_ID_SUPPORTED_FEATURES, MDS_REPORT_ID_DEVICE_IDENTIFIER,
         MDS_REPORT_ID_DATA_URI, MDS_REPORT_ID_AUTHORIZATION]) ∧
    (∀ e, mds_get_supported_features get_feature = Except.error e →
      mds_read_device_config get_feature =
        (Except.error e, [MDS_REPORT_ID_SUPPORTED_FEATURES])) ∧
    (∀ v e, mds_get_supported_features get_feature = Except.ok v →
      mds_get_device_identifier get_feature MDS_MAX_DEVICE_ID_LEN = Except.error e →
      mds_read_device_config get_feature =
        (Except.error e,
         [MDS_REPORT_ID_SUPPORTED_FEATURES, MDS_REPORT_ID_DEVICE_IDENTIFIER])) ∧
    (∀ v l e, mds_get_supported_features get_feature = Except.ok v →
      mds_get_device_identifier get_feature MDS_MAX_DEVICE_ID_LEN = Except.ok l →
      mds_get_data_uri get_feature MDS_MAX_URI_LEN = Except.error e →
      mds_read_device_config get_feature =
        (Except.error e,
         [MDS_REPORT_ID_SUPPORTED_FEATURES, MDS_REPORT_ID_DEVICE_IDENTIFIER,
          MDS_REPORT_ID_DATA_URI])) ∧
    (∀ v l l2 e, mds_get_supported_features get_feature = Except.ok v →
      mds_get_device_identifier get_feature MDS_MAX_DEVICE_ID_LEN = Except.ok l →
      mds_get_data_uri get_feature MDS_MAX_URI_LEN = Except.ok l2 →
      mds_get_authorization get_feature MDS_MAX_AUTH_LEN = Except.error e →
      mds_read_device_config get_feature =
        (Except.error e,
         [MDS_REPORT_ID_SUPPORTED_FEATURES, MDS_REPORT_ID_DEVICE_IDENTIFIER,
          MDS_REPORT_ID_DATA_URI, MDS_REPORT_ID_AUTHORIZATION])) := by
  refine ⟨?_, ?_, ?_, ?_, ?_⟩
  · intro cfg hcfg
    unfold mds_read_device_config at hcfg ⊢
    cases h1 : mds_get_supported_features get_feature with
    | error e => rw [h1] at hcfg; exact absurd hcfg (by simp)
    | ok feats =>
      rw [h1] at hcfg
      cases h2 : mds_get_device_identifier get_feature MDS_MAX_DEVICE_ID_LEN with
      | error e => rw [h2] at hcfg; exact absurd hcfg (by simp)
      | ok dev_id =>
        rw [h2] at hcfg
        cases h3 : mds_get_data_uri get_feature MDS_MAX_URI_LEN with
        | error e => rw [h3] at hcfg; exact absurd hcfg (by simp)
        | ok uri =>
          rw [h3] at hcfg
          cases h4 : mds_get_authorization get_feature MDS_MAX_AUTH_LEN with
          | error e => rw [h4] at hcfg; exact absurd hcfg (by simp)
          | ok auth =>
            rw [h4] at hcfg
            simp only [Except.ok.injEq] at hcfg
            subst hcfg
            exact ⟨rfl, rfl, rfl, rfl, rfl⟩
  · intro e h1
    unfold mds_read_device_config
    rw [h1]
  · intro v e h1 h2
    unfold mds_read_device_config
    rw [h1, h2]
  · intro v l e h1 h2 h3
    unfold mds_read_device_config
    rw [h1, h2, h3]
  · intro v l l2 e h1 h2 h3 h4
    unfold mds_read_device_config
    rw [h1, h2, h3, h4]

/-- Witness for C7 at concrete channels: a channel that always fails with -6
aborts at the first read and surfaces -6; a channel serving the four reports
yields the fully decoded configuration. -/
theorem c7_read_device_config_spec_witness :
    mds_read_device_config (fun _ => Except.error (-6)) =
      (Except.error (-6), [MDS_REPORT_ID_SUPPORTED_FEATURES]) ∧
    mds_get_supported_features
      (fun rid => if rid = 1 then Except.ok [31, 0, 0, 0]
        else if rid = 2 then Except.ok [68, 69, 86]
        else if rid = 3 then Except.ok [104] else Except.ok [107]) = Except.ok 31 := by
  constructor
  · exact (c7_read_device_config_spec (fun _ => Except.error (-6))).2.1 (-6) (by decide)
  · have h := (c7_read_device_config_spec
      (fun rid => if rid = 1 then Except.ok [31, 0, 0, 0]
        else if rid = 2 then Except.ok [68, 69, 86]
        else if rid = 3 then Except.ok [104] else Except.ok [107])).1
      { supported_features := 31, device_identifier := [68, 69, 86, 0],
        data_uri := [104, 0], authorization := [107, 0] } (by decide)
    exact h.1

end MDS
